import Mathlib

/-!
Verification of the glinda library (content negotiation for Tornado request
handlers plus an HTTP test harness) against its specification.

The Python sources are shallowly embedded: dictionaries become association
lists, in-place mutation becomes explicit state passing, raised exceptions
become explicit result constructors, and machine-level collaborators
(`urllib`, `ietfparse`, `tornado`) are either translated from their documented
behaviour or taken as explicit function parameters of the embedding.
-/

namespace Glinda

/-- Model of a raised tornado.web.HTTPError: the protocol status code together
with the reason phrase the library passes through the reason keyword. -/
structure HTTPError where
  status : Nat
  reason : String
  deriving DecidableEq

/-- First-match lookup in an association list, the embedding of Python
dictionary lookup for the dictionaries built by this development (which never
contain a duplicated key). -/
def alookup {α β : Type} [DecidableEq α] : List (α × β) → α → Option β
  | [], _ => none
  | (k0, v0) :: rest, k => if k0 = k then some v0 else alookup rest k

/-- Embedding of Python dictionary item assignment: replace the first binding
of the key, or append a fresh binding when the key is absent. -/
def setKey {α β : Type} [DecidableEq α] : List (α × β) → α → β → List (α × β)
  | [], k, v => [(k, v)]
  | (k0, v0) :: rest, k, v =>
      if k0 = k then (k, v) :: rest else (k0, v0) :: setKey rest k v

theorem alookup_setKey_self {α β : Type} [DecidableEq α]
    (l : List (α × β)) (k : α) (v : β) : alookup (setKey l k v) k = some v := by
  induction l with
  | nil => simp [setKey, alookup]
  | cons hd tl ih =>
      obtain ⟨k0, v0⟩ := hd
      by_cases h : k0 = k
      · simp [setKey, h, alookup]
      · simp [setKey, h, alookup, ih]

theorem alookup_setKey_other {α β : Type} [DecidableEq α]
    (l : List (α × β)) (k k1 : α) (v : β) (h : k1 ≠ k) :
    alookup (setKey l k v) k1 = alookup l k1 := by
  have hk : ¬ k = k1 := fun h1 => h h1.symm
  induction l with
  | nil => simp [setKey, alookup, hk]
  | cons hd tl ih =>
      obtain ⟨k0, v0⟩ := hd
      by_cases h0 : k0 = k
      · subst h0
        simp [setKey, alookup, hk]
      · simp [setKey, h0, alookup, ih]

theorem alookup_append {α β : Type} [DecidableEq α]
    (l1 l2 : List (α × β)) (k : α) (h : alookup l1 k = none) :
    alookup (l1 ++ l2) k = alookup l2 k := by
  induction l1 with
  | nil => simp
  | cons hd tl ih =>
      obtain ⟨k0, v0⟩ := hd
      by_cases h0 : k0 = k
      · simp [alookup, h0] at h
      · simp [alookup, h0] at h ⊢
        exact ih h

/-! ### URL quoting (glinda/httpcompat.py re-exports of urllib.parse)

The library delegates to urllib.parse.quote, urlencode and urlunsplit.  These
collaborators are translated here from their documented behaviour: quote
percent-encodes the UTF-8 bytes of every character that is neither in
urllib's always-safe set (ASCII letters, digits, underscore, dot, hyphen,
tilde) nor in the safe argument, urlencode quotes keys and values with
quote_plus (empty safe set, space encoded as a plus sign) and joins the
pairs with ampersands, and urlunsplit reassembles the URL components. -/

/-- UTF-8 encoding of one character code point, as a list of byte values. -/
def utf8Bytes (c : Char) : List Nat :=
  let n := c.toNat
  if n < 0x80 then [n]
  else if n < 0x800 then
    [0xC0 ||| (n >>> 6), 0x80 ||| (n &&& 0x3F)]
  else if n < 0x10000 then
    [0xE0 ||| (n >>> 12), 0x80 ||| ((n >>> 6) &&& 0x3F), 0x80 ||| (n &&& 0x3F)]
  else
    [0xF0 ||| (n >>> 18), 0x80 ||| ((n >>> 12) &&& 0x3F),
     0x80 ||| ((n >>> 6) &&& 0x3F), 0x80 ||| (n &&& 0x3F)]

/-- Uppercase hexadecimal digit for a value below 16. -/
def hexDigit (n : Nat) : Char :=
  if n < 10 then Char.ofNat (48 + n) else Char.ofNat (55 + n)

/-- Percent-escape of a single byte value, with uppercase hex digits as
produced by urllib.parse.quote. -/
def percentByte (b : Nat) : String :=
  "%" ++ String.singleton (hexDigit (b / 16)) ++ String.singleton (hexDigit (b % 16))

/-- Membership in urllib.parse's always-safe character set: ASCII letters,
digits, underscore, dot, hyphen and tilde. -/
def alwaysSafe (c : Char) : Bool :=
  ('A' ≤ c && c ≤ 'Z') || ('a' ≤ c && c ≤ 'z') || ('0' ≤ c && c ≤ '9') ||
    c == '_' || c == '.' || c == '-' || c == '~'

/-- Quoting of one character given the extra safe characters. -/
def quoteChar (safe : List Char) (c : Char) : String :=
  if alwaysSafe c || safe.contains c then String.singleton c
  else String.join ((utf8Bytes c).map percentByte)

/-- Model of urllib.parse.quote with its default safe argument of a slash,
exactly the form re-exported through glinda.httpcompat and used by
_quote_path. -/
def quote (s : String) : String :=
  String.join (s.data.map (quoteChar ['/']))

/-- Model of urllib.parse.quote_plus: no safe characters and the space
character mapped to a plus sign. -/
def quote_plus (s : String) : String :=
  String.join (s.data.map (fun c => if c == ' ' then "+" else quoteChar [] c))

/-- Model of urllib.parse.urlencode on an association list of string pairs:
each key and value is quoted with quote_plus and the pairs are joined with
ampersands. -/
def urlencode (q : List (String × String)) : String :=
  String.intercalate "&" (q.map (fun kv => quote_plus kv.1 ++ "=" ++ quote_plus kv.2))

/-- Model of Python str.startswith: prefix test on the character lists. -/
def pyStartsWith (s p : String) : Bool :=
  p.data.isPrefixOf s.data

/-- Model of urllib.parse.urlunsplit for a scheme, network location, path and
query (the fragment passed by the library is None and therefore omitted). -/
def urlunsplit (scheme netloc path query : String) : String :=
  let url :=
    if netloc ≠ "" || pyStartsWith path "//" then
      "//" ++ netloc ++ (if path ≠ "" && !(pyStartsWith path "/") then "/" ++ path else path)
    else path
  let url1 := if scheme ≠ "" then scheme ++ ":" ++ url else url
  if query ≠ "" then url1 ++ "?" ++ query else url1

/-- Embedding of services._quote_path: quote each path segment, join the
segments with slashes, and prefix a slash when the result is not already
path-absolute. -/
def _quote_path (path : List String) : String :=
  let path_str := String.intercalate "/" (path.map quote)
  if pyStartsWith path_str "/" then path_str else "/" ++ path_str

/-- Lexicographic strict comparison of character lists by code point, the
behaviour of Python's comparison of strings. -/
def lexLtb : List Char → List Char → Bool
  | [], [] => false
  | [], _ :: _ => true
  | _ :: _, [] => false
  | a :: as, b :: bs => if a < b then true else if b < a then false else lexLtb as bs

theorem lexLtb_irrefl : ∀ l : List Char, lexLtb l l = false := by
  intro l
  induction l with
  | nil => rfl
  | cons a as ih => simp [lexLtb, lt_irrefl a, ih]

theorem lexLtb_trans : ∀ a b c : List Char,
    lexLtb a b = true → lexLtb b c = true → lexLtb a c = true := by
  intro a
  induction a with
  | nil =>
      intro b c h1 h2
      cases b with
      | nil => cases h1
      | cons y ys =>
          cases c with
          | nil => cases h2
          | cons z zs => rfl
  | cons x xs ih =>
      intro b c h1 h2
      cases b with
      | nil => cases h1
      | cons y ys =>
          cases c with
          | nil => cases h2
          | cons z zs =>
              simp only [lexLtb] at h1 h2 ⊢
              by_cases hxy : x < y
              · by_cases hyz : y < z
                · simp [lt_trans hxy hyz]
                · by_cases hzy : z < y
                  · simp [hyz, hzy] at h2
                  · have hy : y = z := le_antisymm (not_lt.mp hzy) (not_lt.mp hyz)
                    simp [hy ▸ hxy]
              · by_cases hyx : y < x
                · simp [hxy, hyx] at h1
                · have hx : x = y := le_antisymm (not_lt.mp hyx) (not_lt.mp hxy)
                  subst hx
                  by_cases hyz : x < z
                  · simp [hyz]
                  · by_cases hzy : z < x
                    · simp [hyz, hzy] at h2
                    · have hz : x = z := le_antisymm (not_lt.mp hzy) (not_lt.mp hyz)
                      subst hz
                      simp [lt_irrefl x] at h1 h2 ⊢
                      exact ih ys zs h1 h2

theorem lexLtb_connex : ∀ a b : List Char,
    lexLtb a b = false → lexLtb b a = false → a = b := by
  intro a
  induction a with
  | nil =>
      intro b h1 _
      cases b with
      | nil => rfl
      | cons y ys => cases h1
  | cons x xs ih =>
      intro b h1 h2
      cases b with
      | nil => cases h2
      | cons y ys =>
          simp only [lexLtb] at h1 h2
          by_cases hxy : x < y
          · simp [hxy] at h1
          · by_cases hyx : y < x
            · simp [hxy, hyx] at h1 h2
            · have hx : x = y := le_antisymm (not_lt.mp hyx) (not_lt.mp hxy)
              subst hx
              simp [lt_irrefl x] at h1 h2
              rw [ih ys h1 h2]

/-- Model of Python string comparison, by code-point lexicographic order on
the characters. -/
def pyStrLt (a b : String) : Bool :=
  lexLtb a.data b.data

/-- Python's strict comparison of pairs of strings, as invoked by
sorted(query.items()) in Service.url_for: compare the first components and
break ties on the second. -/
def pyPairLtb (a b : String × String) : Bool :=
  pyStrLt a.1 b.1 || (decide (a.1 = b.1) && pyStrLt a.2 b.2)

/-- Reflexive closure of the pair comparison: the ordering by which Python's
sorted arranges the query items. -/
def pairLe (a b : String × String) : Prop :=
  pyPairLtb a b = true ∨ a = b

instance pairLe.dec : DecidableRel pairLe := fun a b => by
  unfold pairLe
  infer_instance

theorem pyPairLtb_irrefl (a : String × String) : pyPairLtb a a = false := by
  simp [pyPairLtb, pyStrLt, lexLtb_irrefl]

theorem pyPairLtb_trans {a b c : String × String}
    (h1 : pyPairLtb a b = true) (h2 : pyPairLtb b c = true) : pyPairLtb a c = true := by
  simp only [pyPairLtb, pyStrLt, Bool.or_eq_true, Bool.and_eq_true, decide_eq_true_eq] at h1 h2 ⊢
  rcases h1 with h1 | ⟨h1e, h1v⟩
  · rcases h2 with h2 | ⟨h2e, h2v⟩
    · exact Or.inl (lexLtb_trans _ _ _ h1 h2)
    · exact Or.inl (by rw [← congrArg String.data h2e]; exact h1)
  · rcases h2 with h2 | ⟨h2e, h2v⟩
    · exact Or.inl (by rw [congrArg String.data h1e]; exact h2)
    · exact Or.inr ⟨h1e.trans h2e, lexLtb_trans _ _ _ h1v h2v⟩

theorem pyPairLtb_asymm {a b : String × String}
    (h1 : pyPairLtb a b = true) (h2 : pyPairLtb b a = true) : False := by
  have h := pyPairLtb_trans h1 h2
  rw [pyPairLtb_irrefl a] at h
  cases h

theorem str_data_inj {a b : String} (h : a.data = b.data) : a = b := by
  cases a
  cases b
  exact congrArg String.mk (by simpa using h)

instance pairLe.total : IsTotal (String × String) pairLe := by
  constructor
  intro a b
  cases hab : pyPairLtb a b with
  | true => exact Or.inl (Or.inl hab)
  | false =>
      cases hba : pyPairLtb b a with
      | true => exact Or.inr (Or.inl hba)
      | false =>
          left
          right
          simp only [pyPairLtb, pyStrLt, Bool.or_eq_false_iff] at hab hba
          obtain ⟨h1f, h1s⟩ := hab
          obtain ⟨h2f, h2s⟩ := hba
          have hfst : a.1 = b.1 := str_data_inj (lexLtb_connex a.1.data b.1.data h1f h2f)
          have h1v : lexLtb a.2.data b.2.data = false := by simpa [hfst] using h1s
          have h2v : lexLtb b.2.data a.2.data = false := by simpa [hfst] using h2s
          exact Prod.ext hfst (str_data_inj (lexLtb_connex a.2.data b.2.data h1v h2v))

instance pairLe.trans : IsTrans (String × String) pairLe := by
  constructor
  intro a b c hab hbc
  rcases hab with h1 | h1
  · rcases hbc with h2 | h2
    · exact Or.inl (pyPairLtb_trans h1 h2)
    · exact Or.inl (h2 ▸ h1)
  · exact h1 ▸ hbc

instance pairLe.antisymm : IsAntisymm (String × String) pairLe := by
  constructor
  intro a b hab hba
  rcases hab with h1 | h1
  · rcases hba with h2 | h2
    · exact absurd (And.intro h1 h2) (fun h => pyPairLtb_asymm h.1 h.2)
    · exact h2.symm
  · exact h1

/-! ### glinda/testing/services.py : Request, Response, Service -/

/-- Embedding of services.Request: the method, the quoted resource path, and
the body, headers and query that record_request later fills in. -/
structure Request where
  method : String
  resource : String
  body : Option (List Nat)
  headers : List (String × String)
  query : List (String × String)
  deriving DecidableEq

/-- Constructor of services.Request: the resource is the quoted join of the
path segments and the remaining fields start out empty. -/
def Request.make (method : String) (path : List String) : Request :=
  ⟨method, _quote_path path, none, [], []⟩

/-- Embedding of services.Response: a falsy reason argument is replaced by
the string Unspecified and the headers dictionary is copied on construction
(copying is implicit here because values are immutable in the embedding). -/
structure Response where
  status : Nat
  reason : String
  body : Option (List Nat)
  headers : List (String × String)
  deriving DecidableEq

/-- Constructor of services.Response. -/
def Response.make (status : Nat) (reason : Option String) (body : Option (List Nat))
    (headers : Option (List (String × String))) : Response :=
  ⟨status, reason.getD "Unspecified", body, headers.getD []⟩

/-- Embedding of services.Service: the listening port stands for the bound
acceptor socket, and the defaultdict fields _requests and _responses are
association lists whose absent keys read as empty lists. -/
structure Service where
  name : String
  port : Nat
  endpoints : List String
  responses : List ((String × String) × List Response)
  requests : List (String × List Request)
  deriving DecidableEq

/-- Reading one queue of the _responses defaultdict: an absent key denotes an
empty queue. -/
def respGetD (svc : Service) (key : String × String) : List Response :=
  (alookup svc.responses key).getD []

/-- Embedding of Service._register_endpoint: record the quoted path in the
endpoint set when it is new (the add_resource callback into the Tornado
application is modelled separately by TornadoApp.add_resource). -/
def _register_endpoint (svc : Service) (path : String) : Service :=
  if path ∈ svc.endpoints then svc
  else { svc with endpoints := svc.endpoints ++ [path] }

/-- Embedding of Service.add_response: register the endpoint, then append the
response to the FIFO queue keyed by the request's method and resource. -/
def add_response (svc : Service) (request : Request) (response : Response) : Service :=
  let svc1 := _register_endpoint svc request.resource
  { svc1 with
      responses := setKey svc1.responses (request.method, request.resource)
        (respGetD svc1 (request.method, request.resource) ++ [response]) }

/-- Embedding of Service.get_next_response: pop the front of the queue keyed
by the inbound request's method and path, or fail with HTTP status 456 and
reason Test Configuration Error when that queue is empty. -/
def get_next_response (svc : Service) (method path : String) :
    Except HTTPError (Response × Service) :=
  match respGetD svc (method, path) with
  | [] => Except.error ⟨456, "Test Configuration Error"⟩
  | r :: rest =>
      Except.ok (r, { svc with responses := setKey svc.responses (method, path) rest })

/-- Iterated dispatch: the outcomes of a number of consecutive inbound
requests for one method and path, each consuming at most one queued
response. -/
def serveSeq (svc : Service) (method path : String) : Nat → List (Except HTTPError Response)
  | 0 => []
  | Nat.succ n =>
      match get_next_response svc method path with
      | Except.error e => Except.error e :: serveSeq svc method path n
      | Except.ok (r, svc1) => Except.ok r :: serveSeq svc1 method path n

/-- Registration of a whole list of responses for one method and resource, in
order, through Service.add_response. -/
def addResponses (svc : Service) (method resource : String) (rs : List Response) : Service :=
  rs.foldl (fun s r => add_response s ⟨method, resource, none, [], []⟩ r) svc

theorem responses_register_endpoint (svc : Service) (path : String) :
    (_register_endpoint svc path).responses = svc.responses := by
  unfold _register_endpoint
  split <;> rfl

theorem respGetD_add_response_self (svc : Service) (request : Request) (r : Response) :
    respGetD (add_response svc request r) (request.method, request.resource)
      = respGetD svc (request.method, request.resource) ++ [r] := by
  unfold add_response respGetD
  simp [alookup_setKey_self, responses_register_endpoint]

theorem respGetD_addResponses (method resource : String) :
    ∀ (rs : List Response) (svc : Service),
      respGetD (addResponses svc method resource rs) (method, resource)
        = respGetD svc (method, resource) ++ rs := by
  intro rs
  induction rs with
  | nil => intro svc; simp [addResponses]
  | cons r rest ih =>
      intro svc
      have h1 := respGetD_add_response_self svc ⟨method, resource, none, [], []⟩ r
      have h2 : addResponses svc method resource (r :: rest)
          = addResponses (add_response svc ⟨method, resource, none, [], []⟩ r) method resource rest := by
        simp [addResponses]
      rw [h2, ih]
      simp [h1]

theorem get_next_response_cons (svc : Service) (method path : String)
    (r : Response) (rest : List Response)
    (h : respGetD svc (method, path) = r :: rest) :
    ∃ svc1, get_next_response svc method path = Except.ok (r, svc1)
      ∧ respGetD svc1 (method, path) = rest := by
  refine ⟨{ svc with responses := setKey svc.responses (method, path) rest }, ?_, ?_⟩
  · unfold get_next_response
    rw [h]
  · unfold respGetD
    simp [alookup_setKey_self]

theorem serveSeq_drains (method path : String) :
    ∀ (rs : List Response) (svc : Service), respGetD svc (method, path) = rs →
      serveSeq svc method path (rs.length + 1)
        = rs.map Except.ok ++ [Except.error ⟨456, "Test Configuration Error"⟩] := by
  intro rs
  induction rs with
  | nil =>
      intro svc h
      unfold serveSeq
      unfold get_next_response
      rw [h]
      rfl
  | cons r rest ih =>
      intro svc h
      obtain ⟨svc1, hstep, hrest⟩ := get_next_response_cons svc method path r rest h
      have hs : serveSeq svc method path (rest.length + 1 + 1)
          = Except.ok r :: serveSeq svc1 method path (rest.length + 1) := by
        simp [serveSeq, hstep]
      show serveSeq svc method path (rest.length + 1 + 1) = _
      rw [hs, ih svc1 hrest]
      simp

/-- C1: for every mock Service and every (method, path) key, responses queued
via add_response are returned by get_next_response in FIFO registration order,
exactly one response is consumed per matching inbound request (other keys are
untouched), and a matching request on an empty queue fails with protocol
status 456 and reason Test Configuration Error. -/
theorem add_response_fifo_order :
    (∀ (svc : Service) (method resource : String) (rs : List Response),
        respGetD svc (method, resource) = [] →
        serveSeq (addResponses svc method resource rs) method resource (rs.length + 1)
          = rs.map Except.ok ++ [Except.error ⟨456, "Test Configuration Error"⟩])
    ∧ (∀ (svc svc1 : Service) (method path : String) (r : Response),
        get_next_response svc method path = Except.ok (r, svc1) →
        respGetD svc (method, path) = r :: respGetD svc1 (method, path)
          ∧ ∀ key, key ≠ (method, path) → respGetD svc1 key = respGetD svc key)
    ∧ (∀ (svc : Service) (method path : String),
        respGetD svc (method, path) = [] →
        get_next_response svc method path
          = Except.error ⟨456, "Test Configuration Error"⟩) := by
  refine ⟨?_, ?_, ?_⟩
  · intro svc method resource rs h0
    exact serveSeq_drains method resource rs _
      (by rw [respGetD_addResponses method resource rs svc, h0]; simp)
  · intro svc svc1 method path r hstep
    cases hd : respGetD svc (method, path) with
    | nil =>
        unfold get_next_response at hstep
        rw [hd] at hstep
        simp at hstep
    | cons r0 rest =>
        unfold get_next_response at hstep
        rw [hd] at hstep
        simp only [Except.ok.injEq, Prod.mk.injEq] at hstep
        obtain ⟨hr, hsvc⟩ := hstep
        subst hr
        subst hsvc
        constructor
        · unfold respGetD
          simp [alookup_setKey_self]
        · intro key hk
          unfold respGetD
          simp [alookup_setKey_other _ _ _ _ hk]
  · intro svc method path h
    unfold get_next_response
    rw [h]

/-- Host string of a service, as Service.__init__ derives it from the bound
socket address of the acceptor. -/
def Service.host (svc : Service) : String :=
  "127.0.0.1:" ++ toString svc.port

/-- Embedding of Service.url_for: quote the path segments, percent-encode the
query parameters after sorting them (Python's sorted on pairs of strings is
the lexicographic order pairLe), and assemble the URL with urlunsplit. -/
def url_for (host : String) (path : List String) (query : List (String × String)) : String :=
  let resource := _quote_path path
  let query_str := urlencode (List.insertionSort pairLe query)
  urlunsplit "http" host resource query_str

/-- Method form of Service.url_for, reading the host from the service. -/
def Service.url_for (svc : Service) (path : List String)
    (query : List (String × String)) : String :=
  Glinda.url_for svc.host path query

theorem insertionSort_perm_eq {q1 q2 : List (String × String)} (h : q1.Perm q2) :
    List.insertionSort pairLe q1 = List.insertionSort pairLe q2 :=
  List.eq_of_perm_of_sorted
    ((List.perm_insertionSort pairLe q1).trans
      (h.trans (List.perm_insertionSort pairLe q2).symm))
    (List.sorted_insertionSort pairLe q1) (List.sorted_insertionSort pairLe q2)

/-- C7: url_for percent-encodes each path segment independently, joins the
segments with slashes and prefixes a slash when the path is not already
absolute, percent-encodes the query parameters sorted by key, and the result
is byte-identical no matter in which order the query mapping enumerates its
entries; in particular a segment a b becomes a%20b and a query value 1 2
becomes 1+2. -/
theorem url_for_encodes_and_deterministic :
    url_for "127.0.0.1:2000" ["a b"] [("c", "1 2")] = "http://127.0.0.1:2000/a%20b?c=1+2"
  ∧ _quote_path ["a b"] = "/a%20b"
  ∧ _quote_path ["a b", "c d"] = "/a%20b/c%20d"
  ∧ _quote_path ["/already", "abs"] = "/already/abs"
  ∧ url_for "h" [] [("b", "2"), ("a", "1")] = "http://h/?a=1&b=2"
  ∧ (∀ (host : String) (path : List String) (q1 q2 : List (String × String)),
      q1.Perm q2 → url_for host path q1 = url_for host path q2) := by
  refine ⟨by rfl, by rfl, by rfl, by rfl, by rfl, ?_⟩
  intro host path q1 q2 h
  unfold url_for
  rw [insertionSort_perm_eq h]

/-- Witness for C7: applying the determinism clause to the two enumeration
orders of a concrete two-entry query mapping yields the same URL. -/
theorem url_for_encodes_and_deterministic_witness :
    url_for "h" ["p q"] [("b", "2"), ("a", "1")]
      = url_for "h" ["p q"] [("a", "1"), ("b", "2")] :=
  url_for_encodes_and_deterministic.2.2.2.2.2 "h" ["p q"]
    [("b", "2"), ("a", "1")] [("a", "1"), ("b", "2")]
    (List.Perm.swap ("a", "1") ("b", "2") [])

/-! ### glinda/testing/services.py : _Application, _ErrorHandler, ServiceLayer -/

/-- Kind of request handler bound by a routing rule: either a
_ServiceHandler wired to a named service, or the _ErrorHandler. -/
inductive RuleHandler where
  | serviceHandler (service : String)
  | errorHandler
  deriving DecidableEq

/-- Embedding of the Tornado application set up by _Application: the ordered
routing table of (pattern, handler) rules. -/
structure TornadoApp where
  rules : List (String × RuleHandler)
  deriving DecidableEq

/-- Embedding of _Application.__init__: the initial routing table holds one
rule binding the literal pattern / to the _ErrorHandler. -/
def appInit : TornadoApp :=
  ⟨[("/", RuleHandler.errorHandler)]⟩

/-- Python list.insert(-1, x): insert x immediately before the last element
(or as the only element of an empty list). -/
def insertBeforeLast {α : Type} (l : List α) (x : α) : List α :=
  l.take (l.length - 1) ++ x :: l.drop (l.length - 1)

/-- Embedding of _Application.add_resource: a rule for the new resource is
inserted just before the last rule, leaving the error-handler rule at the
end of the table. -/
def add_resource (app : TornadoApp) (service resource : String) : TornadoApp :=
  ⟨insertBeforeLast app.rules (resource, RuleHandler.serviceHandler service)⟩

/-- Outcome of routing one inbound path. -/
inductive Dispatch where
  | handler (h : RuleHandler)
  | frameworkDefault
  deriving DecidableEq

/-- Model of Tornado routing over the literal path patterns this library
registers: URLSpec anchors every pattern (a terminating dollar sign is
appended and matching starts at the beginning), so a literal pattern matches
exactly its own path; when no rule matches, Tornado falls back to its
built-in default handler, which responds 404 Not Found. -/
def dispatch (app : TornadoApp) (path : String) : Dispatch :=
  match app.rules.find? (fun rule => rule.1 == path) with
  | some rule => Dispatch.handler rule.2
  | none => Dispatch.frameworkDefault

/-- Embedding of _ErrorHandler.prepare: it unconditionally raises an
HTTPError with status 456 and reason Unexpected Request. -/
def errorHandlerFailure : HTTPError :=
  ⟨456, "Unexpected Request"⟩

/-- Application obtained from the initial one by a sequence of add_resource
calls, each pairing a service name with a resource pattern. -/
def buildApp (resources : List (String × String)) : TornadoApp :=
  resources.foldl (fun app sr => add_resource app sr.1 sr.2) appInit

theorem insertBeforeLast_snoc {α : Type} (l : List α) (a x : α) :
    insertBeforeLast (l ++ [a]) x = l ++ [x, a] := by
  unfold insertBeforeLast
  have hlen : (l ++ [a]).length - 1 = l.length := by simp
  rw [hlen, List.take_left, List.drop_left]

theorem buildApp_rules_aux :
    ∀ (resources : List (String × String)) (front : List (String × RuleHandler)),
      (resources.foldl (fun app sr => add_resource app sr.1 sr.2)
          ⟨front ++ [("/", RuleHandler.errorHandler)]⟩).rules
        = front ++ resources.map (fun sr => (sr.2, RuleHandler.serviceHandler sr.1))
            ++ [("/", RuleHandler.errorHandler)] := by
  intro resources
  induction resources with
  | nil => intro front; simp
  | cons sr rest ih =>
      intro front
      have h1 : add_resource ⟨front ++ [("/", RuleHandler.errorHandler)]⟩ sr.1 sr.2
          = ⟨(front ++ [(sr.2, RuleHandler.serviceHandler sr.1)])
              ++ [("/", RuleHandler.errorHandler)]⟩ := by
        unfold add_resource
        rw [insertBeforeLast_snoc]
        simp
      simp only [List.foldl_cons, h1, ih]
      simp

theorem buildApp_rules (resources : List (String × String)) :
    (buildApp resources).rules
      = resources.map (fun sr => (sr.2, RuleHandler.serviceHandler sr.1))
          ++ [("/", RuleHandler.errorHandler)] := by
  have h := buildApp_rules_aux resources []
  simpa [buildApp, appInit] using h

theorem find_append_of_none {α : Type} (p : α → Bool) :
    ∀ (l1 l2 : List α), (∀ x ∈ l1, p x = false) →
      (l1 ++ l2).find? p = l2.find? p := by
  intro l1
  induction l1 with
  | nil => intro l2 _; rfl
  | cons a l ih =>
      intro l2 h
      have ha : p a = false := h a (by simp)
      simp only [List.cons_append, List.find?]
      rw [ha]
      exact ih l2 (fun x hx => h x (by simp [hx]))

/-- C8 counterexample: with no endpoint registered at all, a request to the
path /x does not reach the 456 default handler at all (it falls to the
framework's built-in 404), and even the request to / that does reach the
default _ErrorHandler is refused with reason Unexpected Request, not Test
Configuration Error. -/
theorem dispatch_default_handler_counterexample :
    dispatch (buildApp []) "/x" = Dispatch.frameworkDefault
  ∧ dispatch (buildApp []) "/" = Dispatch.handler RuleHandler.errorHandler
  ∧ errorHandlerFailure.status = 456
  ∧ errorHandlerFailure.reason = "Unexpected Request"
  ∧ errorHandlerFailure.reason ≠ "Test Configuration Error" := by
  refine ⟨by rfl, by rfl, by rfl, by rfl, by decide⟩

/-- C8 amended: the default handler installed by _Application.__init__ is
bound to the literal pattern / and kept last by add_resource; an inbound
request to / with no endpoint registered there reaches it and fails with
protocol status 456 and reason Unexpected Request, while a request to any
other unregistered path bypasses it and falls to the framework's built-in
404 handler. -/
theorem dispatch_default_handler (resources : List (String × String)) (path : String)
    (hpath : ∀ sr ∈ resources, sr.2 ≠ path) :
    dispatch (buildApp resources) path
      = (if path = "/" then Dispatch.handler RuleHandler.errorHandler
         else Dispatch.frameworkDefault)
  ∧ errorHandlerFailure = ⟨456, "Unexpected Request"⟩ := by
  constructor
  · unfold dispatch
    rw [buildApp_rules]
    rw [find_append_of_none _ _ _ ?_]
    · by_cases hp : path = "/"
      · subst hp
        simp [List.find?]
      · have : (("/", RuleHandler.errorHandler).1 == path) = false := by
          simp [BEq.beq]
          exact fun h => hp h.symm
        simp only [List.find?, this]
        simp [hp]
    · intro x hx
      simp only [List.mem_map] at hx
      obtain ⟨sr, hsr, hx1⟩ := hx
      have := hpath sr hsr
      subst hx1
      simp [BEq.beq, this]
  · rfl

/-- Witness for the amended C8 statement at one registered endpoint. -/
theorem dispatch_default_handler_witness :
    dispatch (buildApp [("svc", "/a")]) "/"
        = Dispatch.handler RuleHandler.errorHandler
    ∧ dispatch (buildApp [("svc", "/a")]) "/x" = Dispatch.frameworkDefault := by
  constructor
  · have h := dispatch_default_handler [("svc", "/a")] "/" (by decide)
    rw [h.1]
    decide
  · have h := dispatch_default_handler [("svc", "/a")] "/x" (by decide)
    rw [h.1]
    decide

/-- Witness for C1 at a concrete service: two queued responses come back in
registration order and a third matching request fails with 456. -/
theorem add_response_fifo_order_witness :
    serveSeq (addResponses ⟨"s", 7, [], [], []⟩ "GET" "/x"
        [⟨200, "OK", none, []⟩, ⟨404, "NF", none, []⟩]) "GET" "/x" 3
      = [Except.ok ⟨200, "OK", none, []⟩, Except.ok ⟨404, "NF", none, []⟩,
         Except.error ⟨456, "Test Configuration Error"⟩] := by
  have h := add_response_fifo_order.1 ⟨"s", 7, [], [], []⟩ "GET" "/x"
    [⟨200, "OK", none, []⟩, ⟨404, "NF", none, []⟩] (by rfl)
  simpa using h

/-- Embedding of services.ServiceLayer: the Tornado application, the sockets
handed to the HTTP server (listed by port), the dictionary of named services,
and the next ephemeral port the operating system would assign. -/
structure ServiceLayer where
  application : TornadoApp
  serverSockets : List Nat
  services : List (String × Service)
  nextPort : Nat
  deriving DecidableEq

/-- Embedding of ServiceLayer.__init__: fresh application, no sockets, no
services; the first ephemeral port is a parameter of the model. -/
def serviceLayerInit (firstPort : Nat) : ServiceLayer :=
  ⟨appInit, [], [], firstPort⟩

/-- Embedding of Service.__init__: bind a fresh socket on the given ephemeral
port and start with empty endpoints, response queues and request log. -/
def newService (name : String) (port : Nat) : Service :=
  ⟨name, port, [], [], []⟩

/-- Embedding of ServiceLayer.get_service: return the stored service when the
name is known; otherwise create a Service (binding a fresh socket), add its
acceptor socket to the server, and store it under the name. -/
def get_service (layer : ServiceLayer) (name : String) : Service × ServiceLayer :=
  match alookup layer.services name with
  | some svc => (svc, layer)
  | none =>
      let svc := newService name layer.nextPort
      (svc, ⟨layer.application, layer.serverSockets ++ [svc.port],
             layer.services ++ [(name, svc)], layer.nextPort + 1⟩)

/-- Embedding of the assignment making item lookup the same operation:
ServiceLayer.__getitem__ is get_service itself. -/
def getitem (layer : ServiceLayer) (name : String) : Service × ServiceLayer :=
  get_service layer name

/-- C10: get_service is idempotent.  Item lookup is the very same operation;
a first call for an unknown name creates the service, adds exactly its
acceptor socket to the server, and stores it; and a repeated call returns
the identical stored service with the whole layer (application, sockets,
services, port allocator) unchanged. -/
theorem get_service_idempotent :
    (∀ (layer : ServiceLayer) (name : String), getitem layer name = get_service layer name)
    ∧ (∀ (layer : ServiceLayer) (name : String) (svc : Service),
        alookup layer.services name = some svc → get_service layer name = (svc, layer))
    ∧ (∀ (layer : ServiceLayer) (name : String),
        alookup layer.services name = none →
        alookup (get_service layer name).2.services name = some (get_service layer name).1
          ∧ (get_service layer name).2.serverSockets
              = layer.serverSockets ++ [(get_service layer name).1.port]
          ∧ (get_service layer name).1 = newService name layer.nextPort)
    ∧ (∀ (layer : ServiceLayer) (name : String),
        get_service (get_service layer name).2 name
          = ((get_service layer name).1, (get_service layer name).2)) := by
  refine ⟨fun _ _ => rfl, ?_, ?_, ?_⟩
  · intro layer name svc h
    unfold get_service
    rw [h]
  · intro layer name h
    unfold get_service
    rw [h]
    refine ⟨?_, rfl, rfl⟩
    simp only
    rw [alookup_append _ _ _ h]
    simp [alookup]
  · intro layer name
    cases h : alookup layer.services name with
    | some svc =>
        have h1 : get_service layer name = (svc, layer) := by
          unfold get_service
          rw [h]
        rw [h1]
        simp [get_service, h]
    | none =>
        have h1 : get_service layer name
            = (newService name layer.nextPort,
               ⟨layer.application,
                layer.serverSockets ++ [(newService name layer.nextPort).port],
                layer.services ++ [(name, newService name layer.nextPort)],
                layer.nextPort + 1⟩) := by
          unfold get_service
          rw [h]
        have hfound : alookup (layer.services ++ [(name, newService name layer.nextPort)]) name
            = some (newService name layer.nextPort) := by
          rw [alookup_append _ _ _ h]
          simp [alookup]
        rw [h1]
        simp [get_service, hfound]

/-- Witness for C10 at a concrete layer: the second request for a name
returns the very service created by the first one, with the layer unchanged,
and exactly one socket was bound. -/
theorem get_service_idempotent_witness :
    get_service (get_service (serviceLayerInit 2000) "db").2 "db"
        = ((get_service (serviceLayerInit 2000) "db").1,
           (get_service (serviceLayerInit 2000) "db").2)
    ∧ (get_service (serviceLayerInit 2000) "db").2.serverSockets = [2000] := by
  constructor
  · exact get_service_idempotent.2.2.2 (serviceLayerInit 2000) "db"
  · have h := (get_service_idempotent.2.2.1 (serviceLayerInit 2000) "db" (by rfl)).2.1
    simpa using h

/-! ### glinda/content.py : values, codec handlers and the registry

Python exceptions are embedded as an explicit error type; the Python values
that flow through the codecs (nested dictionaries, lists, strings, byte
strings and integers) are a mutual inductive family. -/

/-- Python exception classes observed by content.py.  UnicodeEncodeError and
UnicodeDecodeError are subclasses of ValueError; the decode-side unicode
failure is represented directly as valueError and the encode-side one keeps
its own constructor because pack_bytes catches it separately. -/
inductive PyExc where
  | valueError
  | unicodeEncodeError
  | lookupError
  | typeError
  | keyError
  | assertionError
  deriving DecidableEq

/-- Test for the ValueError class, including its unicode subclasses: this is
what an except ValueError clause catches. -/
def PyExc.isValueError : PyExc → Bool
  | PyExc.valueError => true
  | PyExc.unicodeEncodeError => true
  | _ => false

mutual
/-- Python value passed through the codecs: nested dictionaries, lists,
text strings, byte strings and integers. -/
inductive DVal where
  | pyBytes (bs : List Nat)
  | pyStr (s : String)
  | pyInt (n : Int)
  | pyList (items : DList)
  | pyDict (entries : DEntries)
  deriving DecidableEq
/-- List of Python values. -/
inductive DList where
  | nil
  | cons (head : DVal) (tail : DList)
  deriving DecidableEq
/-- Entries of a Python dictionary value. -/
inductive DEntries where
  | nil
  | cons (key : DVal) (value : DVal) (tail : DEntries)
  deriving DecidableEq
end

mutual
/-- Model of tornado.escape.recursive_unicode, parameterized by the UTF-8
byte decoder u8 it applies to byte-string leaves: walk dictionaries and
lists and replace every byte string by the decoded text. -/
def recursiveUnicode (u8 : List Nat → String) : DVal → DVal
  | DVal.pyBytes bs => DVal.pyStr (u8 bs)
  | DVal.pyStr s => DVal.pyStr s
  | DVal.pyInt n => DVal.pyInt n
  | DVal.pyList items => DVal.pyList (recursiveUnicodeList u8 items)
  | DVal.pyDict entries => DVal.pyDict (recursiveUnicodeEntries u8 entries)
/-- Companion of recursiveUnicode on value lists. -/
def recursiveUnicodeList (u8 : List Nat → String) : DList → DList
  | DList.nil => DList.nil
  | DList.cons hd tl => DList.cons (recursiveUnicode u8 hd) (recursiveUnicodeList u8 tl)
/-- Companion of recursiveUnicode on dictionary entries (keys and values are
both converted, as tornado does). -/
def recursiveUnicodeEntries (u8 : List Nat → String) : DEntries → DEntries
  | DEntries.nil => DEntries.nil
  | DEntries.cons k v tl =>
      DEntries.cons (recursiveUnicode u8 k) (recursiveUnicode u8 v)
        (recursiveUnicodeEntries u8 tl)
end

mutual
/-- Does a value contain a byte-string leaf anywhere in its structure. -/
def hasBytesLeaf : DVal → Bool
  | DVal.pyBytes _ => true
  | DVal.pyStr _ => false
  | DVal.pyInt _ => false
  | DVal.pyList items => hasBytesLeafList items
  | DVal.pyDict entries => hasBytesLeafEntries entries
/-- Companion of hasBytesLeaf on value lists. -/
def hasBytesLeafList : DList → Bool
  | DList.nil => false
  | DList.cons hd tl => hasBytesLeaf hd || hasBytesLeafList tl
/-- Companion of hasBytesLeaf on dictionary entries. -/
def hasBytesLeafEntries : DEntries → Bool
  | DEntries.nil => false
  | DEntries.cons k v tl => hasBytesLeaf k || hasBytesLeaf v || hasBytesLeafEntries tl
end

mutual
theorem noBytes_recursiveUnicode (u8 : List Nat → String) :
    ∀ v : DVal, hasBytesLeaf (recursiveUnicode u8 v) = false
  | DVal.pyBytes bs => by simp [recursiveUnicode, hasBytesLeaf]
  | DVal.pyStr s => by simp [recursiveUnicode, hasBytesLeaf]
  | DVal.pyInt n => by simp [recursiveUnicode, hasBytesLeaf]
  | DVal.pyList items => by
      simp [recursiveUnicode, hasBytesLeaf, noBytes_recursiveUnicodeList u8 items]
  | DVal.pyDict entries => by
      simp [recursiveUnicode, hasBytesLeaf, noBytes_recursiveUnicodeEntries u8 entries]
theorem noBytes_recursiveUnicodeList (u8 : List Nat → String) :
    ∀ l : DList, hasBytesLeafList (recursiveUnicodeList u8 l) = false
  | DList.nil => by simp [recursiveUnicodeList, hasBytesLeafList]
  | DList.cons hd tl => by
      simp [recursiveUnicodeList, hasBytesLeafList, noBytes_recursiveUnicode u8 hd,
        noBytes_recursiveUnicodeList u8 tl]
theorem noBytes_recursiveUnicodeEntries (u8 : List Nat → String) :
    ∀ l : DEntries, hasBytesLeafEntries (recursiveUnicodeEntries u8 l) = false
  | DEntries.nil => by simp [recursiveUnicodeEntries, hasBytesLeafEntries]
  | DEntries.cons k v tl => by
      simp [recursiveUnicodeEntries, hasBytesLeafEntries, noBytes_recursiveUnicode u8 k,
        noBytes_recursiveUnicode u8 v, noBytes_recursiveUnicodeEntries u8 tl]
end

/-- Parsed content type as produced by ietfparse headers.parse_content_type:
primary type, subtype, and the parameters mapping. -/
structure CT where
  typ : String
  subtyp : String
  parameters : List (String × String)
  deriving DecidableEq

/-- Parameter lookup on a parsed content type, as
content_type.parameters.get(key). -/
def CT.paramGet (ct : CT) (k : String) : Option String :=
  alookup ct.parameters k

/-- Embedding of content._ContentHandler: the four optional codec hooks and
the default encoding. -/
structure _ContentHandler where
  content_type : String
  dict_to_string : Option (DVal → String)
  string_to_dict : Option (String → Except PyExc DVal)
  dict_to_bytes : Option (DVal → List Nat)
  bytes_to_dict : Option (List Nat → Except PyExc DVal)
  default_encoding : Option String

/-- Embedding of _ContentHandler.__init__: all hooks start out unset. -/
def _ContentHandler.init (content_type : String) : _ContentHandler :=
  ⟨content_type, none, none, none, none, none⟩

/-- Collaborator bundle: the external functions content.py calls into.
parseCT and ctStr model ietfparse header parsing and str(); selectCT models
ietfparse algorithms.select_content_type, with none standing for a NoMatch
error; pyDecode and pyEncode model Python bytes.decode and str.encode; u8
models tornado's to_unicode. -/
structure PyEnv where
  parseCT : String → CT
  ctStr : CT → String
  selectCT : List CT → List CT → Option (CT × CT)
  pyDecode : List Nat → String → Except PyExc String
  pyEncode : String → String → Except PyExc (List Nat)
  u8 : List Nat → String

/-- Embedding of _ContentHandler.unpack_bytes: assert that a decoder exists,
resolve the encoding as the argument or else the default, then prefer the
binary decoder — whose output is passed through recursive_unicode and whose
path never consults the encoding — and otherwise decode the bytes with the
resolved encoding (a missing encoding makes bytes.decode(None) raise a
TypeError) and apply the text decoder. -/
def unpack_bytes (env : PyEnv) (h : _ContentHandler) (obj_bytes : List Nat)
    (encoding : Option String) : Except PyExc DVal :=
  let encoding1 := encoding.orElse (fun _ => h.default_encoding)
  match h.bytes_to_dict with
  | some f =>
      match f obj_bytes with
      | Except.ok v => Except.ok (recursiveUnicode env.u8 v)
      | Except.error e => Except.error e
  | none =>
      match h.string_to_dict with
      | none => Except.error PyExc.assertionError
      | some loader =>
          match encoding1 with
          | none => Except.error PyExc.typeError
          | some enc =>
              match env.pyDecode obj_bytes enc with
              | Except.error e => Except.error e
              | Except.ok s =>
                  match loader s with
                  | Except.ok v => Except.ok v
                  | Except.error e => Except.error e

/-- Outcome of _ContentHandler.pack_bytes: the charset recorded for the
Content-Type header together with the payload and whether the utf-8 fallback
warning was logged, or a raised HTTPError, or a propagated exception. -/
inductive PackResult where
  | ok (charsetUsed : Option String) (packed : List Nat) (warned : Bool)
  | httpError (status : Nat) (reason : String)
  | raised (e : PyExc)
  deriving DecidableEq

/-- Embedding of _ContentHandler.pack_bytes: assert that an encoder exists,
resolve the encoding as the argument, else the default, else utf-8; a binary
encoder wins and reports no charset; the text encoder dumps to a string and
encodes it, turning a LookupError (unknown charset) into an HTTPError 406
and retrying a UnicodeEncodeError with utf-8 after logging a warning. -/
def pack_bytes (env : PyEnv) (h : _ContentHandler) (obj : DVal)
    (encoding : Option String) : PackResult :=
  let enc := (encoding.orElse (fun _ => h.default_encoding)).getD "utf-8"
  match h.dict_to_bytes with
  | some f => PackResult.ok none (f obj) false
  | none =>
      match h.dict_to_string with
      | none => PackResult.raised PyExc.assertionError
      | some dumper =>
          match env.pyEncode (dumper obj) enc with
          | Except.ok bs => PackResult.ok (some enc) bs false
          | Except.error PyExc.lookupError =>
              PackResult.httpError 406 ("target charset " ++ enc ++ " not found")
          | Except.error PyExc.unicodeEncodeError =>
              match env.pyEncode (dumper obj) "utf-8" with
              | Except.ok bs => PackResult.ok (some "utf-8") bs true
              | Except.error e => PackResult.raised e
          | Except.error e => PackResult.raised e

/-- Embedding of the module-level registry pair: _content_handlers and
_content_types, both keyed by the canonical content-type string. -/
structure Registry where
  content_handlers : List (String × _ContentHandler)
  content_types : List (String × CT)

/-- Embedding of content.register_text_type: parse the content type, clear
its parameters, store the parsed type under its canonical string, fetch or
create the handler for that key (dict.setdefault) and set only the
text-path hooks; a falsy default_encoding argument keeps the existing
default. -/
def register_text_type (env : PyEnv) (reg : Registry) (content_type : String)
    (default_encoding : Option String) (dumper : DVal → String)
    (loader : String → Except PyExc DVal) : Registry :=
  let ct := env.parseCT content_type
  let ct1 : CT := { ct with parameters := [] }
  let key := env.ctStr ct1
  let handler := (alookup reg.content_handlers key).getD (_ContentHandler.init key)
  let handler1 := { handler with
      dict_to_string := some dumper,
      string_to_dict := some loader,
      default_encoding := default_encoding.orElse (fun _ => handler.default_encoding) }
  ⟨setKey reg.content_handlers key handler1, setKey reg.content_types key ct1⟩

/-- Embedding of content.register_binary_type: same key computation and
setdefault, setting only the binary-path hooks. -/
def register_binary_type (env : PyEnv) (reg : Registry) (content_type : String)
    (dumper : DVal → List Nat) (loader : List Nat → Except PyExc DVal) : Registry :=
  let ct := env.parseCT content_type
  let ct1 : CT := { ct with parameters := [] }
  let key := env.ctStr ct1
  let handler := (alookup reg.content_handlers key).getD (_ContentHandler.init key)
  let handler1 := { handler with
      dict_to_bytes := some dumper,
      bytes_to_dict := some loader }
  ⟨setKey reg.content_handlers key handler1, setKey reg.content_types key ct1⟩

/-- Embedding of content.clear_handlers: both registry maps are wiped. -/
def clear_handlers (_reg : Registry) : Registry :=
  ⟨[], []⟩

/-- Outcome of HandlerMixin.get_request_body: the decoded body, a raised
HTTPError with its status and reason, or a propagated Python exception. -/
inductive BodyResult where
  | ok (v : DVal)
  | httpError (status : Nat) (reason : String)
  | raised (e : PyExc)
  deriving DecidableEq

/-- Embedding of HandlerMixin.get_request_body, with the per-request
_request_body cache threaded explicitly (the second component of the result
is the cache after the call).  A cached value is returned immediately.
Otherwise the Content-Type header, defaulted to application/octet-stream
when absent, is parsed; a failed content-type selection raises HTTPError 415
with reason Unexpected content type; the handler selected from the registry
decodes the body with the charset parameter of the parsed header, a
ValueError becoming HTTPError 400 with reason Content body decode failure;
a successful decode is stored in the cache. -/
def get_request_body (env : PyEnv) (reg : Registry) (content_type_header : Option String)
    (body : List Nat) (request_body : Option DVal) : BodyResult × Option DVal :=
  match request_body with
  | some v => (BodyResult.ok v, some v)
  | none =>
      let content_type_str := content_type_header.getD "application/octet-stream"
      let content_type := env.parseCT content_type_str
      match env.selectCT [content_type] (reg.content_types.map Prod.snd) with
      | none => (BodyResult.httpError 415 "Unexpected content type", none)
      | some selpair =>
          match alookup reg.content_handlers (env.ctStr selpair.1) with
          | none => (BodyResult.raised PyExc.keyError, none)
          | some handler =>
              match unpack_bytes env handler body (content_type.paramGet "charset") with
              | Except.ok v => (BodyResult.ok v, some v)
              | Except.error e =>
                  if e.isValueError then
                    (BodyResult.httpError 400 "Content body decode failure", none)
                  else (BodyResult.raised e, none)

/-- C4: when a handler has a binary decoder registered, unpack_bytes uses it
and passes its output through recursive_unicode; the charset argument, the
default encoding and any registered text decoder are all ignored; and the
normalized output contains no byte-string leaves. -/
theorem unpack_bytes_binary_precedence (env : PyEnv) (h : _ContentHandler)
    (f : List Nat → Except PyExc DVal) (hf : h.bytes_to_dict = some f)
    (b : List Nat) (charset : Option String) :
    unpack_bytes env h b charset
        = (match f b with
           | Except.ok v => Except.ok (recursiveUnicode env.u8 v)
           | Except.error e => Except.error e)
  ∧ (∀ (charset1 de : Option String) (sd : Option (String → Except PyExc DVal)),
      unpack_bytes env { h with default_encoding := de, string_to_dict := sd } b charset1
        = unpack_bytes env h b charset)
  ∧ (∀ v, f b = Except.ok v → hasBytesLeaf (recursiveUnicode env.u8 v) = false) := by
  refine ⟨?_, ?_, ?_⟩
  · simp only [unpack_bytes, hf]
  · intro charset1 de sd
    have hb : ({ h with default_encoding := de, string_to_dict := sd }
        : _ContentHandler).bytes_to_dict = some f := hf
    simp only [unpack_bytes, hf, hb]
  · intro v _
    exact noBytes_recursiveUnicode env.u8 v

/-- Concrete collaborator bundle used by the witnesses: trivial content-type
parsing, selection of the first registered type, and code-point based byte
and string conversions. -/
def envW : PyEnv :=
  ⟨fun s => ⟨s, "", []⟩,
   fun ct => ct.typ,
   fun _rq avail => avail.head?.map (fun c => (c, c)),
   fun bs _enc => Except.ok (String.mk (bs.map Char.ofNat)),
   fun s _enc => Except.ok (s.data.map Char.toNat),
   fun bs => String.mk (bs.map Char.ofNat)⟩

/-- Concrete handler with both a binary decoder and a failing text decoder:
the binary path must win. -/
def hBin : _ContentHandler :=
  ⟨"application/msgpack", none, some (fun _ => Except.error PyExc.valueError), none,
   some (fun bs =>
     Except.ok (DVal.pyDict (DEntries.cons (DVal.pyBytes bs) (DVal.pyBytes [104, 105])
       DEntries.nil))),
   some "latin1"⟩

/-- Witness for C4: the binary decoder runs (even though a text decoder is
registered and would fail), its nested byte strings come back as text, and
the charset argument and default encoding have no influence. -/
theorem unpack_bytes_binary_precedence_witness :
    unpack_bytes envW hBin [104] (some "utf-16")
        = Except.ok (DVal.pyDict (DEntries.cons (DVal.pyStr "h") (DVal.pyStr "hi")
            DEntries.nil))
  ∧ unpack_bytes envW { hBin with default_encoding := none, string_to_dict := none } [104] none
        = unpack_bytes envW hBin [104] (some "utf-16")
  ∧ hasBytesLeaf (recursiveUnicode envW.u8
        (DVal.pyDict (DEntries.cons (DVal.pyBytes [104]) (DVal.pyBytes [104, 105])
          DEntries.nil))) = false := by
  have h := unpack_bytes_binary_precedence envW hBin _ rfl [104] (some "utf-16")
  exact ⟨h.1.trans (by rfl), h.2.1 none none none, h.2.2 _ rfl⟩

/-- C5: on the text path, pack_bytes reacts to the two encoding failures as
specified: an unknown charset name (a LookupError from str.encode) becomes
an HTTPError with protocol status 406, and unrepresentable characters (a
UnicodeEncodeError) trigger a retry with utf-8 whose result is returned with
charsetUsed utf-8 and the warning flag set. -/
theorem pack_bytes_charset_behavior (env : PyEnv) (h : _ContentHandler)
    (dumper : DVal → String) (hb : h.dict_to_bytes = none)
    (hd : h.dict_to_string = some dumper) (obj : DVal) (encoding : Option String) :
    (env.pyEncode (dumper obj) ((encoding.orElse (fun _ => h.default_encoding)).getD "utf-8")
        = Except.error PyExc.lookupError →
      pack_bytes env h obj encoding
        = PackResult.httpError 406
            ("target charset "
              ++ ((encoding.orElse (fun _ => h.default_encoding)).getD "utf-8")
              ++ " not found"))
  ∧ (∀ bs,
      env.pyEncode (dumper obj) ((encoding.orElse (fun _ => h.default_encoding)).getD "utf-8")
          = Except.error PyExc.unicodeEncodeError →
      env.pyEncode (dumper obj) "utf-8" = Except.ok bs →
      pack_bytes env h obj encoding = PackResult.ok (some "utf-8") bs true) := by
  constructor
  · intro henc
    simp [pack_bytes, hb, hd, henc]
  · intro bs henc hutf
    simp [pack_bytes, hb, hd, henc, hutf]

/-- Collaborator bundle whose str.encode model fails with a LookupError for
the charset name bogus and with a UnicodeEncodeError for ascii. -/
def envC5 : PyEnv :=
  { envW with
      pyEncode := fun _s enc =>
        if enc = "bogus" then Except.error PyExc.lookupError
        else if enc = "ascii" then Except.error PyExc.unicodeEncodeError
        else Except.ok [101] }

/-- Concrete text-only handler for the C5 witness. -/
def hTxt : _ContentHandler :=
  ⟨"application/json", some (fun _ => "x"),
   some (fun _ => Except.error PyExc.valueError), none, none, none⟩

/-- Witness for C5: an unknown charset yields the 406 error and an
unencodable text falls back to utf-8 with the warning flag set. -/
theorem pack_bytes_charset_behavior_witness :
    pack_bytes envC5 hTxt (DVal.pyInt 1) (some "bogus")
        = PackResult.httpError 406 "target charset bogus not found"
  ∧ pack_bytes envC5 hTxt (DVal.pyInt 1) (some "ascii")
        = PackResult.ok (some "utf-8") [101] true := by
  constructor
  · exact (pack_bytes_charset_behavior envC5 hTxt _ rfl rfl (DVal.pyInt 1)
      (some "bogus")).1 (by rfl)
  · exact (pack_bytes_charset_behavior envC5 hTxt _ rfl rfl (DVal.pyInt 1)
      (some "ascii")).2 [101] (by rfl) (by rfl)

/-- C2: get_request_body treats an absent Content-Type header exactly like
application/octet-stream, raises HTTPError 415 if and only if content-type
selection over the registered types finds no match, and raises HTTPError 400
when the selected handler's decode raises a ValueError. -/
theorem get_request_body_status_codes (env : PyEnv) (reg : Registry)
    (hdr : Option String) (body : List Nat) :
    (get_request_body env reg none body none
        = get_request_body env reg (some "application/octet-stream") body none)
  ∧ ((get_request_body env reg hdr body none).1
        = BodyResult.httpError 415 "Unexpected content type"
      ↔ env.selectCT [env.parseCT (hdr.getD "application/octet-stream")]
          (reg.content_types.map Prod.snd) = none)
  ∧ (∀ selpair handler e,
      env.selectCT [env.parseCT (hdr.getD "application/octet-stream")]
          (reg.content_types.map Prod.snd) = some selpair →
      alookup reg.content_handlers (env.ctStr selpair.1) = some handler →
      unpack_bytes env handler body
          ((env.parseCT (hdr.getD "application/octet-stream")).paramGet "charset")
        = Except.error e →
      e.isValueError = true →
      (get_request_body env reg hdr body none).1
        = BodyResult.httpError 400 "Content body decode failure") := by
  refine ⟨rfl, ?_, ?_⟩
  · cases hsel : env.selectCT [env.parseCT (hdr.getD "application/octet-stream")]
        (reg.content_types.map Prod.snd) with
    | none => simp [get_request_body, hsel]
    | some sp =>
        cases hh : alookup reg.content_handlers (env.ctStr sp.1) with
        | none => simp [get_request_body, hsel, hh]
        | some handler =>
            cases hu : unpack_bytes env handler body
                ((env.parseCT (hdr.getD "application/octet-stream")).paramGet "charset") with
            | ok v => simp [get_request_body, hsel, hh, hu]
            | error e =>
                by_cases hv : e.isValueError = true
                · simp [get_request_body, hsel, hh, hu, hv]
                · simp [get_request_body, hsel, hh, hu, hv]
  · intro selpair handler e hsel hh hu hv
    simp [get_request_body, hsel, hh, hu, hv]

/-- Concrete handler whose text decoder always raises a ValueError, for the
C2 witness. -/
def hValErr : _ContentHandler :=
  ⟨"t", none, some (fun _ => Except.error PyExc.valueError), none, none, some "utf-8"⟩

/-- Witness for C2: an empty registry produces the 415 failure, and a
registered decoder that raises a ValueError produces the 400 failure. -/
theorem get_request_body_status_codes_witness :
    (get_request_body envW ⟨[], []⟩ (some "x/y") [1] none).1
        = BodyResult.httpError 415 "Unexpected content type"
  ∧ (get_request_body envW ⟨[("t", hValErr)], [("t", ⟨"t", "", []⟩)]⟩ (some "t") [1] none).1
        = BodyResult.httpError 400 "Content body decode failure" := by
  constructor
  · exact (get_request_body_status_codes envW ⟨[], []⟩ (some "x/y") [1]).2.1.mpr (by rfl)
  · exact (get_request_body_status_codes envW ⟨[("t", hValErr)], [("t", ⟨"t", "", []⟩)]⟩
      (some "t") [1]).2.2 (⟨"t", "", []⟩, ⟨"t", "", []⟩) hValErr PyExc.valueError
      (by rfl) (by rfl) (by rfl) (by rfl)

/-- C9: get_request_body is lazily memoized per request.  With a cached value
the call returns it unchanged without consulting the environment or the
registry at all, and a first successful decode stores exactly the returned
value in the cache, so that any later access (under any environment,
registry, header or body) returns the identical value. -/
theorem get_request_body_memoized (env env1 : PyEnv) (reg reg1 : Registry)
    (hdr hdr1 : Option String) (body body1 : List Nat) :
    (∀ v : DVal, get_request_body env reg hdr body (some v) = (BodyResult.ok v, some v))
  ∧ (∀ (v : DVal) (c : Option DVal),
      get_request_body env reg hdr body none = (BodyResult.ok v, c) →
      c = some v
        ∧ get_request_body env1 reg1 hdr1 body1 c = (BodyResult.ok v, c)) := by
  constructor
  · intro v
    rfl
  · intro v c h
    have hc : c = some v := by
      simp only [get_request_body] at h
      split at h
      · rw [Prod.mk.injEq] at h
        exact BodyResult.noConfusion h.1
      · split at h
        · rw [Prod.mk.injEq] at h
          exact BodyResult.noConfusion h.1
        · split at h
          · rw [Prod.mk.injEq] at h
            obtain ⟨h1, h2⟩ := h
            injection h1 with h3
            rw [← h3]
            exact h2.symm
          · split at h
            · rw [Prod.mk.injEq] at h
              exact BodyResult.noConfusion h.1
            · rw [Prod.mk.injEq] at h
              exact BodyResult.noConfusion h.1
    subst hc
    exact ⟨rfl, rfl⟩

/-- Concrete handler whose text decoder succeeds, for the C9 witness. -/
def hOk : _ContentHandler :=
  ⟨"t", none, some (fun s => Except.ok (DVal.pyStr s)), none, none, some "utf-8"⟩

/-- Witness for C9: a successful first decode fills the cache with the
returned value, and a second access with a completely different environment,
registry, header and body still returns that value. -/
theorem get_request_body_memoized_witness :
    get_request_body envW ⟨[], []⟩ none [] (some (DVal.pyStr "h"))
        = (BodyResult.ok (DVal.pyStr "h"), some (DVal.pyStr "h")) := by
  exact ((get_request_body_memoized envW envW ⟨[("t", hOk)], [("t", ⟨"t", "", []⟩)]⟩ ⟨[], []⟩
    (some "t") none [104] []).2 (DVal.pyStr "h") (some (DVal.pyStr "h")) (by rfl)).2

/-- Handler produced by register_text_type from the previous handler at the
same key: only the text hooks and the default encoding change. -/
def textHandlerOf (old : _ContentHandler) (de : Option String) (dumper : DVal → String)
    (loader : String → Except PyExc DVal) : _ContentHandler :=
  { old with
      dict_to_string := some dumper,
      string_to_dict := some loader,
      default_encoding := de.orElse (fun _ => old.default_encoding) }

/-- Handler produced by register_binary_type from the previous handler at the
same key: only the binary hooks change. -/
def binHandlerOf (old : _ContentHandler) (bdumper : DVal → List Nat)
    (bloader : List Nat → Except PyExc DVal) : _ContentHandler :=
  { old with
      dict_to_bytes := some bdumper,
      bytes_to_dict := some bloader }

theorem register_text_type_lookup (env : PyEnv) (reg : Registry) (cts : String)
    (de : Option String) (dumper : DVal → String) (loader : String → Except PyExc DVal) :
    alookup (register_text_type env reg cts de dumper loader).content_handlers
        (env.ctStr { env.parseCT cts with parameters := [] })
      = some (textHandlerOf
          ((alookup reg.content_handlers
              (env.ctStr { env.parseCT cts with parameters := [] })).getD
            (_ContentHandler.init (env.ctStr { env.parseCT cts with parameters := [] })))
          de dumper loader) := by
  simp only [register_text_type, textHandlerOf]
  exact alookup_setKey_self _ _ _

theorem register_binary_type_lookup (env : PyEnv) (reg : Registry) (cts : String)
    (bdumper : DVal → List Nat) (bloader : List Nat → Except PyExc DVal) :
    alookup (register_binary_type env reg cts bdumper bloader).content_handlers
        (env.ctStr { env.parseCT cts with parameters := [] })
      = some (binHandlerOf
          ((alookup reg.content_handlers
              (env.ctStr { env.parseCT cts with parameters := [] })).getD
            (_ContentHandler.init (env.ctStr { env.parseCT cts with parameters := [] })))
          bdumper bloader) := by
  simp only [register_binary_type, binHandlerOf]
  exact alookup_setKey_self _ _ _

/-- C6: register_text_type sets only the text hooks and the default encoding
of the handler at its key (preserving any binary hooks) and
register_binary_type symmetrically sets only the binary hooks; neither call
touches any other key; and one call of each for the same content-type
string, in either order, leaves one handler with all four hooks set. -/
theorem register_text_binary_independent (env : PyEnv) (reg : Registry) (cts : String)
    (de : Option String) (dumper : DVal → String) (loader : String → Except PyExc DVal)
    (bdumper : DVal → List Nat) (bloader : List Nat → Except PyExc DVal) :
    let key := env.ctStr { env.parseCT cts with parameters := [] }
    let old := (alookup reg.content_handlers key).getD (_ContentHandler.init key)
    (∃ ht, alookup (register_text_type env reg cts de dumper loader).content_handlers key
          = some ht
        ∧ ht.dict_to_bytes = old.dict_to_bytes ∧ ht.bytes_to_dict = old.bytes_to_dict
        ∧ ht.dict_to_string = some dumper ∧ ht.string_to_dict = some loader
        ∧ ht.default_encoding = de.orElse (fun _ => old.default_encoding))
  ∧ (∃ hb, alookup (register_binary_type env reg cts bdumper bloader).content_handlers key
          = some hb
        ∧ hb.dict_to_string = old.dict_to_string ∧ hb.string_to_dict = old.string_to_dict
        ∧ hb.default_encoding = old.default_encoding
        ∧ hb.dict_to_bytes = some bdumper ∧ hb.bytes_to_dict = some bloader)
  ∧ (∀ key1, key1 ≠ key →
        alookup (register_text_type env reg cts de dumper loader).content_handlers key1
            = alookup reg.content_handlers key1
        ∧ alookup (register_binary_type env reg cts bdumper bloader).content_handlers key1
            = alookup reg.content_handlers key1)
  ∧ (∃ h3, alookup (register_binary_type env
            (register_text_type env reg cts de dumper loader) cts bdumper
            bloader).content_handlers key = some h3
        ∧ h3.dict_to_string = some dumper ∧ h3.string_to_dict = some loader
        ∧ h3.dict_to_bytes = some bdumper ∧ h3.bytes_to_dict = some bloader)
  ∧ (∃ h4, alookup (register_text_type env
            (register_binary_type env reg cts bdumper bloader) cts de dumper
            loader).content_handlers key = some h4
        ∧ h4.dict_to_string = some dumper ∧ h4.string_to_dict = some loader
        ∧ h4.dict_to_bytes = some bdumper ∧ h4.bytes_to_dict = some bloader) := by
  intro key old
  refine ⟨?_, ?_, ?_, ?_, ?_⟩
  · exact ⟨_, register_text_type_lookup env reg cts de dumper loader,
      rfl, rfl, rfl, rfl, rfl⟩
  · exact ⟨_, register_binary_type_lookup env reg cts bdumper bloader,
      rfl, rfl, rfl, rfl, rfl⟩
  · intro key1 hk
    constructor
    · simp only [register_text_type]
      exact alookup_setKey_other _ _ _ _ hk
    · simp only [register_binary_type]
      exact alookup_setKey_other _ _ _ _ hk
  · have h1 := register_text_type_lookup env reg cts de dumper loader
    have h2 := register_binary_type_lookup env
      (register_text_type env reg cts de dumper loader) cts bdumper bloader
    rw [h1] at h2
    exact ⟨_, h2, rfl, rfl, rfl, rfl⟩
  · have h1 := register_binary_type_lookup env reg cts bdumper bloader
    have h2 := register_text_type_lookup env
      (register_binary_type env reg cts bdumper bloader) cts de dumper loader
    rw [h1] at h2
    exact ⟨_, h2, rfl, rfl, rfl, rfl⟩

/-- Dumper, loader and their binary counterparts for the C6 witness. -/
def dW : DVal → String := fun _ => "d"

/-- Text loader for the C6 witness. -/
def lW : String → Except PyExc DVal := fun _ => Except.ok (DVal.pyInt 0)

/-- Binary dumper for the C6 witness. -/
def bdW : DVal → List Nat := fun _ => [0]

/-- Binary loader for the C6 witness. -/
def blW : List Nat → Except PyExc DVal := fun _ => Except.ok (DVal.pyInt 1)

/-- Witness for C6: registering the text codec and then the binary codec for
the same type string (and the other order) leaves a single handler with all
four hooks set, and a handler stored under a different key is untouched. -/
theorem register_text_binary_independent_witness :
    (alookup (register_binary_type envW
          (register_text_type envW ⟨[], []⟩ "t" (some "u") dW lW) "t" bdW
          blW).content_handlers "t").map
        (fun h => (h.dict_to_string.isSome, h.string_to_dict.isSome,
          h.dict_to_bytes.isSome, h.bytes_to_dict.isSome))
      = some (true, true, true, true)
  ∧ (alookup (register_text_type envW
          (register_binary_type envW ⟨[], []⟩ "t" bdW blW) "t" (some "u") dW
          lW).content_handlers "t").map
        (fun h => (h.dict_to_string.isSome, h.string_to_dict.isSome,
          h.dict_to_bytes.isSome, h.bytes_to_dict.isSome))
      = some (true, true, true, true)
  ∧ alookup (register_text_type envW ⟨[("z", _ContentHandler.init "z")], []⟩ "t"
        (some "u") dW lW).content_handlers "z"
      = some (_ContentHandler.init "z") := by
  refine ⟨?_, ?_, ?_⟩
  · obtain ⟨h3, hl, f1, f2, f3, f4⟩ :=
      (register_text_binary_independent envW ⟨[], []⟩ "t" (some "u") dW lW bdW blW).2.2.2.1
    have hl2 : alookup (register_binary_type envW
        (register_text_type envW ⟨[], []⟩ "t" (some "u") dW lW) "t" bdW
        blW).content_handlers "t" = some h3 := hl
    rw [hl2]
    simp [f1, f2, f3, f4]
  · obtain ⟨h4, hl, f1, f2, f3, f4⟩ :=
      (register_text_binary_independent envW ⟨[], []⟩ "t" (some "u") dW lW bdW blW).2.2.2.2
    have hl2 : alookup (register_text_type envW
        (register_binary_type envW ⟨[], []⟩ "t" bdW blW) "t" (some "u") dW
        lW).content_handlers "t" = some h4 := hl
    rw [hl2]
    simp [f1, f2, f3, f4]
  · exact ((register_text_binary_independent envW ⟨[("z", _ContentHandler.init "z")], []⟩
      "t" (some "u") dW lW bdW blW).2.2.1 "z" (by decide)).1.trans (by rfl)

/-! ### glinda/content.py : send_response and the registry-mutation invariant

The aliasing question behind C3 needs object identity for the parameters
dictionaries, so this part of the embedding threads an explicit heap of
parameter mappings: a ContentType object holds a reference into the heap,
the ietfparse ContentType constructor allocates a fresh cell initialized
with a copy of the entries handed to it (its documented behaviour), and
Python dictionary item assignment mutates the referenced cell in place. -/

/-- ietfparse ContentType object with heap identity for its parameters
dictionary. -/
structure PyContentType where
  content_type : String
  content_subtype : String
  paramsRef : Nat
  deriving DecidableEq

/-- Heap of parameters dictionaries: reference-indexed store plus the next
fresh reference. -/
structure ParamHeap where
  store : List (Nat × List (String × String))
  next : Nat
  deriving DecidableEq

/-- Dereference a parameters dictionary. -/
def heapGet (h : ParamHeap) (r : Nat) : List (String × String) :=
  (alookup h.store r).getD []

/-- Model of the ietfparse ContentType constructor: allocate a fresh
parameters cell holding a copy of the given entries; the new object never
aliases the mapping it was initialized from. -/
def contentTypeNew (h : ParamHeap) (typ sub : String)
    (params : List (String × String)) : PyContentType × ParamHeap :=
  (⟨typ, sub, h.next⟩, ⟨h.store ++ [(h.next, params)], h.next + 1⟩)

/-- Model of Python dictionary item assignment on a heap cell. -/
def heapSetParam (h : ParamHeap) (r : Nat) (k v : String) : ParamHeap :=
  ⟨setKey h.store r (setKey (heapGet h r) k v), h.next⟩

/-- Embedding of the tail of HandlerMixin.send_response (the charset
handling): when pack_bytes reported a charset, construct a copy of the
selected registry ContentType, set the charset parameter on the copy, and
use the copy for the Content-Type header; with no charset (the binary path)
the selected object itself is used unchanged.  Returns the ContentType used
for the header together with the heap after the call. -/
def send_response_content_type (h : ParamHeap) (selected : PyContentType)
    (encoding : Option String) : PyContentType × ParamHeap :=
  match encoding with
  | none => (selected, h)
  | some enc =>
      let copied_heap := contentTypeNew h selected.content_type
        selected.content_subtype (heapGet h selected.paramsRef)
      (copied_heap.1,
       heapSetParam copied_heap.2 copied_heap.1.paramsRef "charset" enc)

/-- Well-formed heap: every allocated reference is below the fresh one. -/
def HeapWF (h : ParamHeap) : Prop :=
  ∀ entry ∈ h.store, entry.1 < h.next

theorem alookup_append_left {α β : Type} [DecidableEq α]
    (l1 l2 : List (α × β)) (k : α) (v : β) (h : alookup l1 k = some v) :
    alookup (l1 ++ l2) k = some v := by
  induction l1 with
  | nil => simp [alookup] at h
  | cons hd tl ih =>
      obtain ⟨k0, v0⟩ := hd
      by_cases h0 : k0 = k
      · simp [alookup, h0] at h ⊢
        exact h
      · simp [alookup, h0] at h ⊢
        exact ih h

theorem alookup_append_single_other {α β : Type} [DecidableEq α]
    (l : List (α × β)) (k k2 : α) (v2 : β) (h : k ≠ k2) :
    alookup (l ++ [(k2, v2)]) k = alookup l k := by
  cases hl : alookup l k with
  | some v => exact alookup_append_left l [(k2, v2)] k v hl
  | none =>
      rw [alookup_append l [(k2, v2)] k hl]
      have hk : ¬ k2 = k := fun h1 => h h1.symm
      simp [alookup, hk]

theorem alookup_none_of_keys_lt (l : List (Nat × List (String × String))) (k : Nat)
    (h : ∀ entry ∈ l, entry.1 < k) : alookup l k = none := by
  induction l with
  | nil => rfl
  | cons hd tl ih =>
      have hk : hd.1 ≠ k := Nat.ne_of_lt (h hd (by simp))
      obtain ⟨k0, v0⟩ := hd
      simp only [alookup]
      rw [if_neg hk]
      exact ih (fun e he => h e (by simp [he]))

/-- C3: serving one request through the charset-tagging tail of
send_response never mutates the registry's ContentType.  With a charset the
header carries a fresh copy whose parameters are the registry entry's
parameters plus the charset, while the registry entry's own parameters cell
is unchanged; without a charset the selected object is returned as is. -/
theorem send_response_preserves_registry (h : ParamHeap) (selected : PyContentType)
    (enc : String) (hwf : HeapWF h) (hsel : selected.paramsRef < h.next) :
    heapGet (send_response_content_type h selected (some enc)).2 selected.paramsRef
        = heapGet h selected.paramsRef
  ∧ heapGet (send_response_content_type h selected (some enc)).2
        (send_response_content_type h selected (some enc)).1.paramsRef
      = setKey (heapGet h selected.paramsRef) "charset" enc
  ∧ (send_response_content_type h selected (some enc)).1.paramsRef
      ≠ selected.paramsRef
  ∧ (send_response_content_type h selected (some enc)).1.content_type
      = selected.content_type
  ∧ (send_response_content_type h selected (some enc)).1.content_subtype
      = selected.content_subtype
  ∧ send_response_content_type h selected none = (selected, h) := by
  have hne : selected.paramsRef ≠ h.next := Nat.ne_of_lt hsel
  have hstore : alookup h.store h.next = none :=
    alookup_none_of_keys_lt h.store h.next hwf
  have hget : heapGet ⟨h.store ++ [(h.next, heapGet h selected.paramsRef)], h.next + 1⟩ h.next
      = heapGet h selected.paramsRef := by
    unfold heapGet
    simp only
    rw [alookup_append _ _ _ hstore]
    simp [alookup]
  refine ⟨?_, ?_, hne.symm, rfl, rfl, rfl⟩
  · show heapGet (heapSetParam ⟨h.store ++ [(h.next, heapGet h selected.paramsRef)],
        h.next + 1⟩ h.next "charset" enc) selected.paramsRef = heapGet h selected.paramsRef
    unfold heapSetParam heapGet
    simp only
    rw [alookup_setKey_other _ _ _ _ hne]
    rw [alookup_append_single_other _ _ _ _ hne]
  · show heapGet (heapSetParam ⟨h.store ++ [(h.next, heapGet h selected.paramsRef)],
        h.next + 1⟩ h.next "charset" enc) h.next
      = setKey (heapGet h selected.paramsRef) "charset" enc
    unfold heapSetParam
    conv_lhs => rw [heapGet]
    simp only
    rw [alookup_setKey_self]
    simp [hget]

/-- Witness for C3 at a concrete heap: the registry cell keeps its original
parameters while the header copy gains the charset parameter. -/
theorem send_response_preserves_registry_witness :
    heapGet (send_response_content_type ⟨[(0, [("q", "1")])], 1⟩ ⟨"application", "json", 0⟩
        (some "utf-8")).2 0 = [("q", "1")]
  ∧ heapGet (send_response_content_type ⟨[(0, [("q", "1")])], 1⟩ ⟨"application", "json", 0⟩
        (some "utf-8")).2
      (send_response_content_type ⟨[(0, [("q", "1")])], 1⟩ ⟨"application", "json", 0⟩
        (some "utf-8")).1.paramsRef
      = [("q", "1"), ("charset", "utf-8")] := by
  have h := send_response_preserves_registry ⟨[(0, [("q", "1")])], 1⟩
    ⟨"application", "json", 0⟩ "utf-8" (by unfold HeapWF; decide) (by decide)
  exact ⟨h.1.trans (by rfl), h.2.1.trans (by rfl)⟩

end Glinda
